import Mathlib

/-!
Verification of the TEASER `AixLib` boundary-condition exporter
(`teaser/logic/buildingobjects/calculation/aixlib.py`) and the Annex60
exporter (`teaser/Data/Output/annex60_output.py`).

The Python code is shallowly embedded: buildings, zones and profiles become
Lean structures; text files become lists of lines (each line a `List Char`);
numbers written to text matrices are rationals serialised through an
injective encoder; fallible code (assertions, pandas length checks,
unbound-variable errors) returns `Except String`.  Side effects on files are
made explicit: writers opened in append mode take the previous file contents
and return the whole new contents; the in-place mutation of the `time_line`
argument of `modelica_AHU_boundary` is modelled by returning the post-call
value of the caller's list.
-/

namespace Teaser

/-! ### Character-level serialisation of numbers

The exporters write tab-separated text matrices.  We model a file as a list
of lines, each line a `List Char`.  Rationals are serialised with an
injective encoder (`encRat`) using only digit characters, `-` and `/`, so
that splitting a line at tab characters and decoding the fields recovers the
original values. -/

/-- The character for a decimal digit `d < 10`. -/
def digitChar (d : ℕ) : Char := Char.ofNat (48 + d)

/-- The decimal digit denoted by a digit character. -/
def charDigit (c : Char) : ℕ := c.toNat - 48

/-- Decimal (big-endian) rendering of a natural number. -/
def encNat (n : ℕ) : List Char :=
  if n = 0 then ['0'] else ((Nat.digits 10 n).map digitChar).reverse

/-- Decode a decimal digit string back to a natural number. -/
def decNat (cs : List Char) : ℕ := Nat.ofDigits 10 (cs.reverse.map charDigit)

/-- Rendering of an integer: optional leading minus sign. -/
def encInt (i : ℤ) : List Char :=
  if i < 0 then '-' :: encNat i.natAbs else encNat i.natAbs

/-- Decode an integer rendered by `encInt`. -/
def decInt (cs : List Char) : ℤ :=
  if cs.head? = some '-' then -(decNat cs.tail : ℤ) else (decNat cs : ℤ)

/-- Injective serialisation of a rational number as `numerator/denominator`. -/
def encRat (q : ℚ) : List Char := encInt q.num ++ '/' :: encNat q.den

/-- Decode a rational rendered by `encRat`. -/
def decRat (cs : List Char) : ℚ :=
  ((decInt (cs.takeWhile (fun c => c ≠ '/')) : ℚ)) /
    ((decNat ((cs.dropWhile (fun c => c ≠ '/')).tail) : ℚ))

/-- Join fields of a row with tab separators, as `to_csv(sep='\t')` does. -/
def joinTab : List (List Char) → List Char
  | [] => []
  | [f] => f
  | f :: fs => f ++ '\t' :: joinTab fs

/-- Worker for `splitTab`: accumulates the current field in reverse. -/
def splitTabAux : List Char → List Char → List (List Char)
  | [], acc => [acc.reverse]
  | c :: cs, acc =>
    if c = '\t' then acc.reverse :: splitTabAux cs [] else splitTabAux cs (c :: acc)

/-- Split a line at tab characters (a reader for the generated matrices). -/
def splitTab (cs : List Char) : List (List Char) := splitTabAux cs []

/-! ### Data model

Only the attributes the exporter reads are modelled.  Zone use conditions
hold the boundary profiles; `ModelAttr` mirrors the four envelope variants
`OneElement` … `FourElement` with exactly the area fields each defines. -/

/-- Use conditions of a thermal zone: the boundary profiles read by the
exporters. -/
structure UseConditions where
  heating_profile : List ℚ
  cooling_profile : List ℚ
  persons_profile : List ℚ
  machines_profile : List ℚ
  lighting_profile : List ℚ

/-- The envelope variant of a zone (`type(zone.model_attr).__name__` in the
Python code) together with the area fields that variant defines. -/
inductive ModelAttr where
  | oneElement (area_ow area_win : ℚ)
  | twoElement (area_ow area_iw area_win : ℚ)
  | threeElement (area_ow area_iw area_gf area_win : ℚ)
  | fourElement (area_ow area_iw area_gf area_rt area_win : ℚ)

/-- A thermal zone of a building. -/
structure ThermalZone where
  name : String
  use_conditions : UseConditions
  model_attr : ModelAttr

/-- The central air-handling unit and its four boundary profiles. -/
structure CentralAHU where
  profile_temperature : List ℚ
  profile_min_relative_humidity : List ℚ
  profile_max_relative_humidity : List ℚ
  profile_v_flow : List ℚ

/-- A building, the `parent` of an `AixLib` calculation object. -/
structure Building where
  name : String
  internal_id : ℤ
  thermal_zones : List ThermalZone
  with_ahu : Bool
  central_ahu : CentralAHU

/-- A TEASER project: a named collection of buildings. -/
structure Project where
  name : String
  buildings : List Building

/-- The `AixLib` calculation object: its constructor-initialised attributes. -/
structure AixLib where
  parent : Building
  file_set_t_heat : String
  file_set_t_cool : String
  file_ahu : String
  file_internal_gains : String
  version : String
  total_surface_area : Option ℚ
  consider_heat_capacity : Bool
  use_set_back : Bool
  use_set_point_temperature_profile_heating : Bool
  use_set_back_cool : Bool

/-- `AixLib.__init__`. -/
def AixLib.init (parent : Building) : AixLib :=
  { parent := parent
    file_set_t_heat := "TsetHeat_" ++ parent.name ++ ".txt"
    file_set_t_cool := "TsetCool_" ++ parent.name ++ ".txt"
    file_ahu := "AHU_" ++ parent.name ++ ".mat"
    file_internal_gains := "InternalGains_" ++ parent.name ++ ".txt"
    version := "0.7.4"
    total_surface_area := none
    consider_heat_capacity := true
    use_set_back := true
    use_set_point_temperature_profile_heating := false
    use_set_back_cool := false }

/-- The surface area one zone contributes in `_calc_surface_area`: the sum of
the area fields defined on its envelope variant. -/
def zoneSurfaceArea (z : ThermalZone) : ℚ :=
  match z.model_attr with
  | .oneElement ow win => ow + win
  | .twoElement ow iw win => ow + iw + win
  | .threeElement ow iw gf win => ow + iw + gf + win
  | .fourElement ow iw gf rt win => ow + iw + gf + rt + win

/-- `AixLib._calc_surface_area`: accumulates the zone surface areas and
stores the total; nothing else changes. -/
def AixLib.calc_surface_area (a : AixLib) : AixLib :=
  let total := a.parent.thermal_zones.foldl (fun acc z => acc + zoneSurfaceArea z) 0
  { a with total_surface_area := some total }

/-! ### `create_profile` -/

/-- `AixLib.create_profile`: the equidistant time grid.  The Python function
asserts `duration_profile / time_step` is an integer (message below) and
raises `ZeroDivisionError` when `time_step` is 0; both are modelled as
`Except.error`.  With `double=True` every grid point is appended twice. -/
def create_profile (duration_profile time_step : ℕ) (double : Bool) :
    Except String (List (List ℕ)) :=
  if time_step = 0 then .error "ZeroDivisionError: division by zero"
  else if duration_profile % time_step ≠ 0 then
    .error "duration must be a multiple of time_step"
  else if double then
    .ok ((List.range (duration_profile / time_step + 1)).flatMap
      fun i => [[i * time_step], [i * time_step]])
  else
    .ok ((List.range (duration_profile / time_step + 1)).map
      fun i => [i * time_step])

/-! ### `modelica_AHU_boundary` -/

/-- Result of `modelica_AHU_boundary`: the matrix written to the `.mat` file
and the post-call value of the local `time_line` variable.  When the caller
supplied a list and `with_ahu` holds, the local variable aliases the
caller's list, so `time_line_after` is the caller's list after the in-place
`append` mutations; otherwise the caller's list is untouched. -/
structure AHUResult where
  written : List (List ℚ)
  time_line_after : List (List ℚ)

/-- The default time grid `create_profile()` (86400 s duration, 3600 s step),
used when `modelica_AHU_boundary` is called without a `time_line`. -/
def default_time_line : List (List ℚ) :=
  match create_profile 86400 3600 false with
  | .ok l => l.map fun row => row.map (fun n => (n : ℚ))
  | .error _ => []

/-- The `for i, time in enumerate(time_line): time.append(...)` loop: each
row gets the four profile values at its index appended. -/
def extendRows (tl : List (List ℚ)) (pt pmin pmax pv : List ℚ) : List (List ℚ) :=
  (List.range tl.length).map fun i =>
    tl.getD i [] ++ [pt.getD i 0, pmin.getD i 0, pmax.getD i 0, pv.getD i 0]

/-- `AixLib.modelica_AHU_boundary`.  With an AHU the four profiles of the
central AHU are used and checked against the time grid; without an AHU the
local `time_line` is rebound to the fixed dummy grid `[[0], [3600]]` with
dummy profiles.  The four length assertions run in source order. -/
def AixLib.modelica_AHU_boundary (a : AixLib) (time_line : Option (List (List ℚ))) :
    Except String AHUResult :=
  let tl0 := time_line.getD default_time_line
  let tl1 := if a.parent.with_ahu then tl0 else [[0], [3600]]
  let pt := if a.parent.with_ahu then a.parent.central_ahu.profile_temperature
    else [293.15, 293.15]
  let pmin := if a.parent.with_ahu then a.parent.central_ahu.profile_min_relative_humidity
    else [0, 0]
  let pmax := if a.parent.with_ahu then a.parent.central_ahu.profile_max_relative_humidity
    else [1, 1]
  let pv := if a.parent.with_ahu then a.parent.central_ahu.profile_v_flow
    else [0, 1]
  if tl1.length ≠ pt.length then
    .error "time line and input have to have the same length,profile_temperature_AHU"
  else if tl1.length ≠ pmin.length then
    .error "time line and input have to have the same length,profile_min_relative_humidity"
  else if tl1.length ≠ pmax.length then
    .error "time line and input have to have the same length,profile_max_relative_humidity"
  else if tl1.length ≠ pv.length then
    .error "time line and input have to have the same length,profile_status_AHU"
  else
    let ext := extendRows tl1 pt pmin pmax pv
    .ok ⟨ext, if a.parent.with_ahu then ext else tl0⟩

/-! ### The pandas data frame and the text-matrix writers

A data frame with the fixed hourly index of 8760 rows is modelled as its
ordered list of columns: pairs of a column name and the assigned values
(`none` for a column created empty and never assigned).  Assigning a column
whose length differs from the 8760-row index raises a pandas `ValueError`,
modelled as `Except.error`. -/

/-- Columns of a pandas data frame with the fixed 8760-row hourly index. -/
abbrev DFrame := List (String × Option (List ℚ))

/-- `export[name] = vals` on a data frame: updates the column if the name
exists, otherwise appends a new column. -/
def dfSet (df : DFrame) (name : String) (vals : List ℚ) : DFrame :=
  if df.any (fun p => p.1 == name) then
    df.map fun p => if p.1 == name then (p.1, some vals) else p
  else df ++ [(name, some vals)]

/-- Column assignment including the pandas length check against the
8760-row index. -/
def dfSetChecked (df : DFrame) (name : String) (vals : List ℚ) :
    Except String DFrame :=
  if vals.length = 8760 then .ok (dfSet df name vals)
  else .error "Length of values does not match length of index"

/-- The data rows `to_csv(sep='\t', header=False)` writes after the index is
relabelled to `(i+1)*3600`: the relabelled index value followed by one field
per column. -/
def matrixRows (df : DFrame) : List (List Char) :=
  (List.range 8760).map fun i =>
    joinTab (encNat ((i + 1) * 3600) :: df.map fun p => encRat ((p.2.getD []).getD i 0))

/-- The header line `double <matname>(8760, <cols>)`. -/
def headerLine (matname : String) (cols : ℕ) : List Char :=
  ("double " ++ matname ++ "(").data ++ encNat 8760 ++ (", ").data ++
    encNat cols ++ (")").data

/-- The lines `modelica_set_temp` writes: `#1`, the `Tset` header, then the
8760 data rows; the data frame starts with one (unassigned) column per zone
and each zone's column is assigned its heating set-point profile. -/
def AixLib.modelica_set_temp_lines (a : AixLib) : Except String (List (List Char)) := do
  let df0 : DFrame := a.parent.thermal_zones.map fun z => (z.name, none)
  let df ← a.parent.thermal_zones.foldlM
    (fun df z => dfSetChecked df z.name z.use_conditions.heating_profile) df0
  .ok ("#1".data :: headerLine "Tset" (a.parent.thermal_zones.length + 1) :: matrixRows df)

/-- `AixLib.modelica_set_temp`: the file is opened in append mode, so the
new contents are the previous contents followed by the generated lines. -/
def AixLib.modelica_set_temp (a : AixLib) (prev : List (List Char)) :
    Except String (List (List Char)) :=
  a.modelica_set_temp_lines.map fun ls => prev ++ ls

/-- The lines `modelica_set_temp_cool` writes (cooling set-point profiles;
the header matrix name is again `Tset`). -/
def AixLib.modelica_set_temp_cool_lines (a : AixLib) :
    Except String (List (List Char)) := do
  let df0 : DFrame := a.parent.thermal_zones.map fun z => (z.name, none)
  let df ← a.parent.thermal_zones.foldlM
    (fun df z => dfSetChecked df z.name z.use_conditions.cooling_profile) df0
  .ok ("#1".data :: headerLine "Tset" (a.parent.thermal_zones.length + 1) :: matrixRows df)

/-- `AixLib.modelica_set_temp_cool`, opened in append mode. -/
def AixLib.modelica_set_temp_cool (a : AixLib) (prev : List (List Char)) :
    Except String (List (List Char)) :=
  a.modelica_set_temp_cool_lines.map fun ls => prev ++ ls

/-- One zone's three column assignments in `modelica_gains_boundary`. -/
def gainsStep (df : DFrame) (z : ThermalZone) : Except String DFrame := do
  let df1 ← dfSetChecked df ("person_" ++ z.name) z.use_conditions.persons_profile
  let df2 ← dfSetChecked df1 ("machines_" ++ z.name) z.use_conditions.machines_profile
  dfSetChecked df2 ("lighting_" ++ z.name) z.use_conditions.lighting_profile

/-- The lines `modelica_gains_boundary` writes: `#1`, the `Internals` header
with `3 * zone_count + 1` columns, then the 8760 data rows; the data frame
starts empty and gains three columns per zone (persons, machines,
lighting). -/
def AixLib.modelica_gains_boundary_lines (a : AixLib) :
    Except String (List (List Char)) := do
  let df ← a.parent.thermal_zones.foldlM gainsStep ([] : DFrame)
  .ok ("#1".data ::
    headerLine "Internals" (a.parent.thermal_zones.length * 3 + 1) :: matrixRows df)

/-- `AixLib.modelica_gains_boundary`, opened in append mode. -/
def AixLib.modelica_gains_boundary (a : AixLib) (prev : List (List Char)) :
    Except String (List (List Char)) :=
  a.modelica_gains_boundary_lines.map fun ls => prev ++ ls

/-- Read a generated text matrix back: skip the `#1` and header lines, split
every remaining line at tabs and decode each field. -/
def parseMatrix (lines : List (List Char)) : List (List ℚ) :=
  (lines.drop 2).map fun l => (splitTab l).map decRat

/-! ### `export_annex60`

The exporter's file-system effects are recorded as a trace of events; the
second component of the result is the uncaught Python exception, if any.
For `number_of_elements ≠ 2` no template is assigned, so the first zone
reached raises `UnboundLocalError` after its (empty) model file was opened
with mode `'w'`. -/

/-- A file-system event of the Annex60 export. -/
inductive FSEvent where
  | package (name : String)
  | packageOrder (name : String)
  | mkdir (path : String)
  | openModel (filename : String)
  | writeModel (filename : String) (template : String)
deriving DecidableEq

/-- Whether an event writes rendered model content into a `.mo` file. -/
def FSEvent.isWriteModel : FSEvent → Bool
  | .writeModel _ _ => true
  | _ => false

/-- The `if/elif` chain selecting `zone_template`: only
`number_of_elements == 2` assigns a template, every other branch is
`pass`. -/
def zone_template_for (number_of_elements : ℤ) : Option String :=
  if number_of_elements = 1 then none
  else if number_of_elements = 2 then some "Annex60_TwoElements"
  else if number_of_elements = 3 then none
  else if number_of_elements = 4 then none
  else none

/-- The message of the `UnboundLocalError` raised when the zone loop reads
the never-assigned `zone_template`. -/
def unboundTemplateError : String :=
  "local variable zone_template referenced before assignment"

/-- The per-zone loop of `export_annex60` for one building: each zone's
model file is opened with mode `'w'` (creating an empty file), then the
template is rendered into it — which raises `UnboundLocalError` when no
template was assigned — and the per-zone package scaffolding is written. -/
def exportZones (tpl : Option String) (bname : String) :
    List ThermalZone → List FSEvent × Option String
  | [] => ([], none)
  | z :: rest =>
    let fname := bname ++ "_" ++ (z.name.replace " " "") ++ ".mo"
    match tpl with
    | none => ([FSEvent.openModel fname], some unboundTemplateError)
    | some t =>
      let evs := [FSEvent.openModel fname, FSEvent.writeModel fname t,
        FSEvent.package (bname ++ "_Models"), FSEvent.packageOrder bname]
      let r := exportZones (some t) bname rest
      (evs ++ r.1, r.2)

/-- The building loop of `export_annex60`: per-building directories and
package scaffolding, then the zone loop; an exception aborts the rest. -/
def exportBuildings (tpl : Option String) : List Building → List FSEvent × Option String
  | [] => ([], none)
  | b :: rest =>
    let evs := [FSEvent.mkdir b.name, FSEvent.mkdir (b.name ++ "_Models"),
      FSEvent.package b.name, FSEvent.packageOrder b.name]
    let z := exportZones tpl b.name b.thermal_zones
    match z.2 with
    | some e => (evs ++ z.1, some e)
    | none =>
      let r := exportBuildings tpl rest
      (evs ++ z.1 ++ r.1, r.2)

/-- The buildings selected for export: all of them, or those matching the
requested `internal_id`. -/
def exported_buildings (prj : Project) (internal_id : Option ℤ) : List Building :=
  match internal_id with
  | some i => prj.buildings.filter fun b => b.internal_id == i
  | none => prj.buildings

/-- `export_annex60`: top-level package scaffolding, template selection,
then the building loop.  Returns the event trace and the uncaught
exception, if any. -/
def export_annex60 (prj : Project) (number_of_elements : ℤ) (internal_id : Option ℤ) :
    List FSEvent × Option String :=
  let r := exportBuildings (zone_template_for number_of_elements)
    (exported_buildings prj internal_id)
  ([FSEvent.package prj.name, FSEvent.packageOrder prj.name] ++ r.1, r.2)

/-! ### Concrete fixtures used by witnesses and counterexamples -/

/-- Empty use conditions. -/
def uc0 : UseConditions := ⟨[], [], [], [], []⟩

/-- Use conditions with full-year (8760-entry) profiles. -/
def ucYear : UseConditions :=
  ⟨List.replicate 8760 2, List.replicate 8760 3, List.replicate 8760 (1/2),
    List.replicate 8760 (1/4), List.replicate 8760 (3/4)⟩

/-- A building with no zones and no AHU. -/
def bldgNoZones : Building := ⟨"B0", 0, [], false, ⟨[], [], [], []⟩⟩

/-- A building with one zone (full-year profiles) and no AHU. -/
def bldgOneZone : Building :=
  ⟨"B1", 1, [⟨"z", ucYear, .twoElement 10 5 2⟩], false, ⟨[], [], [], []⟩⟩

/-- A building with an AHU whose four profiles have one entry each. -/
def bldgAHU : Building :=
  ⟨"BA", 2, [], true, ⟨[280], [0], [1], [1]⟩⟩

/-- A one-building, one-zone project. -/
def prjOne : Project := ⟨"P", [bldgOneZone]⟩

/-! ### Properties of the serialisation -/

lemma charDigit_digitChar {d : ℕ} (h : d < 10) : charDigit (digitChar d) = d := by
  interval_cases d <;> decide

lemma digitChar_ne {d : ℕ} (h : d < 10) :
    digitChar d ≠ '\t' ∧ digitChar d ≠ '/' ∧ digitChar d ≠ '-' := by
  interval_cases d <;> decide

lemma encNat_chars {n : ℕ} {c : Char} (hc : c ∈ encNat n) :
    c ≠ '\t' ∧ c ≠ '/' ∧ c ≠ '-' := by
  unfold encNat at hc
  split at hc
  · simp at hc
    subst hc
    refine ⟨by decide, by decide, by decide⟩
  · simp only [List.mem_reverse, List.mem_map] at hc
    obtain ⟨d, hd, rfl⟩ := hc
    exact digitChar_ne (Nat.digits_lt_base (by norm_num) hd)

lemma decNat_encNat (n : ℕ) : decNat (encNat n) = n := by
  unfold decNat encNat
  split
  · next h => subst h; decide
  · rw [List.reverse_reverse, List.map_map]
    have : (Nat.digits 10 n).map (charDigit ∘ digitChar) = (Nat.digits 10 n).map id := by
      apply List.map_congr_left
      intro d hd
      simp [charDigit_digitChar (Nat.digits_lt_base (by norm_num) hd)]
    rw [this, List.map_id, Nat.ofDigits_digits]

lemma decInt_encInt (i : ℤ) : decInt (encInt i) = i := by
  unfold encInt
  split
  · next hneg =>
    show decInt ('-' :: encNat i.natAbs) = i
    unfold decInt
    rw [if_pos (by simp), List.tail_cons, decNat_encNat]
    omega
  · next hpos =>
    unfold decInt
    have hne : (encNat i.natAbs).head? ≠ some '-' := by
      cases henc : encNat i.natAbs with
      | nil => simp
      | cons c cs =>
        simp only [List.head?_cons, ne_eq, Option.some.injEq]
        intro hc
        have hmem : c ∈ encNat i.natAbs := by rw [henc]; exact List.mem_cons_self c cs
        exact (encNat_chars hmem).2.2 hc
    rw [if_neg hne, decNat_encNat]
    omega

lemma encInt_chars {i : ℤ} {c : Char} (hc : c ∈ encInt i) : c ≠ '\t' ∧ c ≠ '/' := by
  unfold encInt at hc
  split at hc
  · rcases List.mem_cons.mp hc with h | h
    · subst h; exact ⟨by decide, by decide⟩
    · exact ⟨(encNat_chars h).1, (encNat_chars h).2.1⟩
  · exact ⟨(encNat_chars hc).1, (encNat_chars hc).2.1⟩

lemma takeWhile_until_slash (l r : List Char) (h : ∀ c ∈ l, c ≠ '/') :
    (l ++ '/' :: r).takeWhile (fun c => c ≠ '/') = l ∧
    (l ++ '/' :: r).dropWhile (fun c => c ≠ '/') = '/' :: r := by
  induction l with
  | nil => simp [List.takeWhile, List.dropWhile]
  | cons c cs ih =>
    have hc : c ≠ '/' := h c (List.mem_cons_self c cs)
    have ih' := ih fun x hx => h x (List.mem_cons_of_mem c hx)
    constructor
    · simpa [List.takeWhile_cons, hc] using ih'.1
    · simpa [List.dropWhile_cons, hc] using ih'.2

lemma decRat_encRat (q : ℚ) : decRat (encRat q) = q := by
  unfold decRat encRat
  have hnoslash : ∀ c ∈ encInt q.num, c ≠ '/' := fun c hc => (encInt_chars hc).2
  obtain ⟨h1, h2⟩ := takeWhile_until_slash (encInt q.num) (encNat q.den) hnoslash
  rw [h1, h2, List.tail_cons, decInt_encInt, decNat_encNat]
  exact_mod_cast Rat.num_div_den q

lemma encRat_no_tab {q : ℚ} {c : Char} (hc : c ∈ encRat q) : c ≠ '\t' := by
  unfold encRat at hc
  rcases List.mem_append.mp hc with h | h
  · exact (encInt_chars h).1
  · rcases List.mem_cons.mp h with h | h
    · subst h; decide
    · exact (encNat_chars h).1

lemma encNat_no_tab {n : ℕ} {c : Char} (hc : c ∈ encNat n) : c ≠ '\t' :=
  (encNat_chars hc).1

lemma splitTabAux_no_tab (f : List Char) (h : ∀ c ∈ f, c ≠ '\t') :
    ∀ acc, splitTabAux f acc = [acc.reverse ++ f] := by
  induction f with
  | nil => intro acc; simp [splitTabAux]
  | cons c cs ih =>
    intro acc
    have hc : c ≠ '\t' := h c (List.mem_cons_self c cs)
    simp only [splitTabAux, if_neg hc]
    rw [ih (fun x hx => h x (List.mem_cons_of_mem c hx)) (c :: acc)]
    simp

lemma splitTabAux_append (f rest : List Char) (h : ∀ c ∈ f, c ≠ '\t') :
    ∀ acc, splitTabAux (f ++ '\t' :: rest) acc =
      (acc.reverse ++ f) :: splitTabAux rest [] := by
  induction f with
  | nil => intro acc; simp [splitTabAux]
  | cons c cs ih =>
    intro acc
    have hc : c ≠ '\t' := h c (List.mem_cons_self c cs)
    simp only [List.cons_append, splitTabAux, if_neg hc, List.append_eq]
    rw [ih (fun x hx => h x (List.mem_cons_of_mem c hx)) (c :: acc)]
    simp

lemma splitTab_joinTab (fs : List (List Char)) (hne : fs ≠ [])
    (h : ∀ f ∈ fs, ∀ c ∈ f, c ≠ '\t') : splitTab (joinTab fs) = fs := by
  induction fs with
  | nil => exact absurd rfl hne
  | cons f fs ih =>
    cases fs with
    | nil =>
      show splitTabAux (joinTab [f]) [] = [f]
      rw [show joinTab [f] = f from rfl,
        splitTabAux_no_tab f (h f (List.mem_cons_self f [])) []]
      simp
    | cons g gs =>
      show splitTabAux (joinTab (f :: g :: gs)) [] = f :: g :: gs
      rw [show joinTab (f :: g :: gs) = f ++ '\t' :: joinTab (g :: gs) from rfl,
        splitTabAux_append f _ (h f (List.mem_cons_self f _)) []]
      simp only [List.reverse_nil, List.nil_append]
      congr 1
      exact ih (by simp) fun x hx => h x (List.mem_cons_of_mem f hx)

lemma map_range_getD (l : List ℚ) (n : ℕ) (h : l.length = n) :
    (List.range n).map (fun i => l.getD i 0) = l := by
  apply List.ext_getElem
  · simp [h]
  · intro i h1 h2
    simp only [List.getElem_map, List.getElem_range, List.getD_eq_getElem?_getD]
    simp [List.getElem?_eq_getElem, h2]

/-! ### `create_profile`: the time grid -/

lemma double_grid (n t : ℕ) :
    (List.range (n + 1)).flatMap (fun i => [[i * t], [i * t]]) =
    (List.range (2 * (n + 1))).map fun i => [i / 2 * t] := by
  induction n with
  | zero =>
    have : (2 : ℕ) * (0 + 1) = 2 := by norm_num
    rw [this]
    simp [List.range_succ, List.flatMap]
  | succ n ih =>
    have hsplit : 2 * (n + 1 + 1) = 2 * (n + 1) + 1 + 1 := by ring
    rw [List.range_succ, List.flatMap_append, ih, hsplit, List.range_succ,
      List.range_succ]
    have e1 : (2 * (n + 1)) / 2 = n + 1 := by omega
    have e2 : (2 * (n + 1) + 1) / 2 = n + 1 := by omega
    simp [e1, e2]

/-- Claim C1: for `duration_profile` an exact multiple of `time_step`,
`create_profile` returns the ordered grid `0, step, …, duration`, each point
a singleton list, with exactly `duration/step + 1` points; with
`double = true` every point appears twice consecutively and the length is
`2 * (duration/step + 1)`. -/
theorem create_profile_grid (d t : ℕ) (ht : t ≠ 0) (hd : d % t = 0) :
    (create_profile d t false =
      .ok ((List.range (d / t + 1)).map fun i => [i * t])) ∧
    (d / t * t = d) ∧
    (∀ l, create_profile d t false = .ok l →
      l.length = d / t + 1 ∧ ∀ i (hi : i < l.length), l.get ⟨i, hi⟩ = [i * t]) ∧
    (∀ l, create_profile d t true = .ok l →
      l.length = 2 * (d / t + 1) ∧
      ∀ i (hi : i < l.length), l.get ⟨i, hi⟩ = [i / 2 * t]) := by
  have hfalse : create_profile d t false =
      .ok ((List.range (d / t + 1)).map fun i => [i * t]) := by
    unfold create_profile
    rw [if_neg ht, if_neg (by simp [hd])]
    simp
  have htrue : create_profile d t true =
      .ok ((List.range (2 * (d / t + 1))).map fun i => [i / 2 * t]) := by
    unfold create_profile
    rw [if_neg ht, if_neg (by simp [hd])]
    simp [double_grid]
  refine ⟨hfalse, Nat.div_mul_cancel (Nat.dvd_of_mod_eq_zero hd), ?_, ?_⟩
  · intro l hl
    rw [hfalse] at hl
    injection hl with hl
    subst hl
    constructor
    · simp
    · intro i hi
      simp [List.get_eq_getElem]
  · intro l hl
    rw [htrue] at hl
    injection hl with hl
    subst hl
    constructor
    · simp
    · intro i hi
      simp [List.get_eq_getElem]

/-- Witness for C1 at `duration = 7200`, `step = 3600`. -/
theorem create_profile_grid_witness :
    create_profile 7200 3600 false =
      .ok ((List.range (7200 / 3600 + 1)).map fun i => [i * 3600]) :=
  (create_profile_grid 7200 3600 (by decide) (by decide)).1

/-- Claim C8: for `duration_profile` not an exact multiple of `time_step`
(and a nonzero step), `create_profile` fails with the assertion message
`duration must be a multiple of time_step` and returns no grid. -/
theorem create_profile_not_multiple (d t : ℕ) (ht : t ≠ 0) (hd : d % t ≠ 0)
    (double : Bool) :
    create_profile d t double = .error "duration must be a multiple of time_step" := by
  unfold create_profile
  rw [if_neg ht, if_pos (by simp [hd])]

/-- Witness for C8 at `duration = 5000`, `step = 3600`. -/
theorem create_profile_not_multiple_witness :
    create_profile 5000 3600 false =
      .error "duration must be a multiple of time_step" :=
  create_profile_not_multiple 5000 3600 (by decide) (by decide) false

/-! ### `_calc_surface_area` -/

lemma foldl_add_zoneSurfaceArea (l : List ThermalZone) (acc : ℚ) :
    l.foldl (fun acc z => acc + zoneSurfaceArea z) acc =
      acc + (l.map zoneSurfaceArea).sum := by
  induction l generalizing acc with
  | nil => simp
  | cons z zs ih => simp [ih, add_assoc]

/-- Claim C6: `_calc_surface_area` stores, as the one scalar
`total_surface_area`, the sum over all zones of the areas defined on the
zone's envelope variant (`area_ow + area_win`, plus `area_iw`, `area_gf`,
`area_rt` as the variant provides them); every other attribute of the
calculation object is unchanged.  A two-element zone with
`area_ow = 10`, `area_iw = 5`, `area_win = 2` contributes 17. -/
theorem calc_surface_area_spec (a : AixLib) :
    a.calc_surface_area.total_surface_area =
      some ((a.parent.thermal_zones.map zoneSurfaceArea).sum) ∧
    (∀ ow win, zoneSurfaceArea ⟨"z", uc0, .oneElement ow win⟩ = ow + win) ∧
    (∀ ow iw win, zoneSurfaceArea ⟨"z", uc0, .twoElement ow iw win⟩ = ow + iw + win) ∧
    (∀ ow iw gf win,
      zoneSurfaceArea ⟨"z", uc0, .threeElement ow iw gf win⟩ = ow + iw + gf + win) ∧
    (∀ ow iw gf rt win,
      zoneSurfaceArea ⟨"z", uc0, .fourElement ow iw gf rt win⟩ =
        ow + iw + gf + rt + win) ∧
    zoneSurfaceArea ⟨"z", uc0, .twoElement 10 5 2⟩ = 17 ∧
    a.calc_surface_area.parent = a.parent ∧
    a.calc_surface_area.file_set_t_heat = a.file_set_t_heat ∧
    a.calc_surface_area.file_set_t_cool = a.file_set_t_cool ∧
    a.calc_surface_area.file_ahu = a.file_ahu ∧
    a.calc_surface_area.file_internal_gains = a.file_internal_gains ∧
    a.calc_surface_area.version = a.version ∧
    a.calc_surface_area.consider_heat_capacity = a.consider_heat_capacity ∧
    a.calc_surface_area.use_set_back = a.use_set_back ∧
    a.calc_surface_area.use_set_point_temperature_profile_heating =
      a.use_set_point_temperature_profile_heating ∧
    a.calc_surface_area.use_set_back_cool = a.use_set_back_cool := by
  refine ⟨?_, fun _ _ => rfl, fun _ _ _ => rfl, fun _ _ _ _ => rfl,
    fun _ _ _ _ _ => rfl, by norm_num [zoneSurfaceArea], rfl, rfl, rfl, rfl, rfl,
    rfl, rfl, rfl, rfl, rfl⟩
  show some _ = some _
  rw [foldl_add_zoneSurfaceArea, zero_add]

/-! ### `modelica_AHU_boundary` -/

lemma extendRows_length (tl : List (List ℚ)) (pt pmin pmax pv : List ℚ) :
    (extendRows tl pt pmin pmax pv).length = tl.length := by
  simp [extendRows]

lemma extendRows_getD (tl : List (List ℚ)) (pt pmin pmax pv : List ℚ) (i : ℕ)
    (h : i < tl.length) :
    (extendRows tl pt pmin pmax pv).getD i [] =
      tl.getD i [] ++ [pt.getD i 0, pmin.getD i 0, pmax.getD i 0, pv.getD i 0] := by
  unfold extendRows
  rw [List.getD_eq_getElem?_getD, List.getElem?_map, List.getElem?_range h]
  simp

lemma extendRows_mem (tl : List (List ℚ)) (pt pmin pmax pv : List ℚ)
    (row : List ℚ) (hrow : row ∈ extendRows tl pt pmin pmax pv) :
    ∃ i, i < tl.length ∧
      row = tl.getD i [] ++ [pt.getD i 0, pmin.getD i 0, pmax.getD i 0, pv.getD i 0] := by
  unfold extendRows at hrow
  simp only [List.mem_map, List.mem_range] at hrow
  obtain ⟨i, hi, rfl⟩ := hrow
  exact ⟨i, hi, rfl⟩

lemma getD_length_of_mem (tl : List (List ℚ)) (i : ℕ) (hi : i < tl.length)
    (h : ∀ row ∈ tl, row.length = 1) : (tl.getD i []).length = 1 := by
  rw [List.getD_eq_getElem?_getD, List.getElem?_eq_getElem hi]
  exact h _ (List.getElem_mem hi)

/-- Claim C3: with `with_ahu = false`, `modelica_AHU_boundary` writes the
fixed 2×5 dummy matrix `[[0, 293.15, 0, 1, 0], [3600, 293.15, 0, 1, 1]]`
whatever `time_line` argument is passed, and the supplied grid is discarded
unchanged. -/
theorem AHU_boundary_no_ahu (a : AixLib) (h : a.parent.with_ahu = false)
    (tl : Option (List (List ℚ))) :
    ∃ r, a.modelica_AHU_boundary tl = .ok r ∧
      r.written = [[0, 293.15, 0, 1, 0], [3600, 293.15, 0, 1, 1]] ∧
      r.written.length = 2 ∧ (∀ row ∈ r.written, row.length = 5) ∧
      r.time_line_after = tl.getD default_time_line := by
  refine ⟨⟨[[0, 293.15, 0, 1, 0], [3600, 293.15, 0, 1, 1]],
    tl.getD default_time_line⟩, ?_, rfl, rfl, ?_, rfl⟩
  · unfold AixLib.modelica_AHU_boundary
    rw [h]
    norm_num [extendRows, List.range_succ]
  · intro row hrow
    rcases List.mem_cons.mp hrow with hr | hr
    · subst hr; rfl
    · simp only [List.mem_singleton] at hr
      subst hr; rfl

/-- Witness for C3: a building without an AHU, with a one-row grid passed
in. -/
theorem AHU_boundary_no_ahu_witness :
    ∃ r, (AixLib.init bldgNoZones).modelica_AHU_boundary (some [[7]]) = .ok r ∧
      r.written = [[0, 293.15, 0, 1, 0], [3600, 293.15, 0, 1, 1]] ∧
      r.written.length = 2 ∧ (∀ row ∈ r.written, row.length = 5) ∧
      r.time_line_after = (some [[(7 : ℚ)]]).getD default_time_line :=
  AHU_boundary_no_ahu (AixLib.init bldgNoZones) rfl (some [[7]])

/-- Claim C5: with `with_ahu = true`, each of the four AHU profiles is
checked (in source order) against the time-grid length; a mismatch fails
with the assertion message naming the offending sequence, and when all four
lengths match no error is raised. -/
theorem AHU_boundary_length_asserts (a : AixLib) (h : a.parent.with_ahu = true)
    (tl : List (List ℚ)) :
    (tl.length ≠ a.parent.central_ahu.profile_temperature.length →
      a.modelica_AHU_boundary (some tl) =
        .error "time line and input have to have the same length,profile_temperature_AHU") ∧
    (tl.length = a.parent.central_ahu.profile_temperature.length →
      tl.length ≠ a.parent.central_ahu.profile_min_relative_humidity.length →
      a.modelica_AHU_boundary (some tl) =
        .error "time line and input have to have the same length,profile_min_relative_humidity") ∧
    (tl.length = a.parent.central_ahu.profile_temperature.length →
      tl.length = a.parent.central_ahu.profile_min_relative_humidity.length →
      tl.length ≠ a.parent.central_ahu.profile_max_relative_humidity.length →
      a.modelica_AHU_boundary (some tl) =
        .error "time line and input have to have the same length,profile_max_relative_humidity") ∧
    (tl.length = a.parent.central_ahu.profile_temperature.length →
      tl.length = a.parent.central_ahu.profile_min_relative_humidity.length →
      tl.length = a.parent.central_ahu.profile_max_relative_humidity.length →
      tl.length ≠ a.parent.central_ahu.profile_v_flow.length →
      a.modelica_AHU_boundary (some tl) =
        .error "time line and input have to have the same length,profile_status_AHU") ∧
    (tl.length = a.parent.central_ahu.profile_temperature.length →
      tl.length = a.parent.central_ahu.profile_min_relative_humidity.length →
      tl.length = a.parent.central_ahu.profile_max_relative_humidity.length →
      tl.length = a.parent.central_ahu.profile_v_flow.length →
      ∃ r, a.modelica_AHU_boundary (some tl) = .ok r) := by
  unfold AixLib.modelica_AHU_boundary
  rw [h]
  simp only [if_true, Option.getD_some, ite_true]
  refine ⟨fun h1 => ?_, fun h1 h2 => ?_, fun h1 h2 h3 => ?_,
    fun h1 h2 h3 h4 => ?_, fun h1 h2 h3 h4 => ?_⟩
  · rw [if_pos h1]
  · rw [if_neg (by simp [h1]), if_pos h2]
  · rw [if_neg (by simp [h1]), if_neg (by simp [h2]), if_pos h3]
  · rw [if_neg (by simp [h1]), if_neg (by simp [h2]), if_neg (by simp [h3]),
      if_pos h4]
  · rw [if_neg (by simp [h1]), if_neg (by simp [h2]), if_neg (by simp [h3]),
      if_neg (by simp [h4])]
    exact ⟨_, rfl⟩

/-- Witness for C5: an AHU building with one-entry profiles and a
two-row grid (temperature length mismatch). -/
theorem AHU_boundary_length_asserts_witness :
    (AixLib.init bldgAHU).modelica_AHU_boundary (some [[0], [3600]]) =
      .error "time line and input have to have the same length,profile_temperature_AHU" :=
  (AHU_boundary_length_asserts (AixLib.init bldgAHU) rfl [[0], [3600]]).1
    (by decide)

/-- Claim C10: with `with_ahu = true` and matching lengths, the caller's
`time_line` rows are mutated in place: each row receives the four profile
values at its index, so singleton rows grow to five entries (and the written
matrix aliases the mutated list); a second call reusing the mutated list
extends the rows again, to nine entries. -/
theorem AHU_boundary_mutates_time_line (a : AixLib) (h : a.parent.with_ahu = true)
    (tl : List (List ℚ))
    (h1 : tl.length = a.parent.central_ahu.profile_temperature.length)
    (h2 : tl.length = a.parent.central_ahu.profile_min_relative_humidity.length)
    (h3 : tl.length = a.parent.central_ahu.profile_max_relative_humidity.length)
    (h4 : tl.length = a.parent.central_ahu.profile_v_flow.length) :
    ∃ r, a.modelica_AHU_boundary (some tl) = .ok r ∧
      r.time_line_after = r.written ∧
      r.time_line_after.length = tl.length ∧
      (∀ i, i < tl.length →
        r.time_line_after.getD i [] = tl.getD i [] ++
          [a.parent.central_ahu.profile_temperature.getD i 0,
           a.parent.central_ahu.profile_min_relative_humidity.getD i 0,
           a.parent.central_ahu.profile_max_relative_humidity.getD i 0,
           a.parent.central_ahu.profile_v_flow.getD i 0]) ∧
      ((∀ row ∈ tl, row.length = 1) →
        ∀ row ∈ r.time_line_after, row.length = 5) ∧
      (∃ r2, a.modelica_AHU_boundary (some r.time_line_after) = .ok r2 ∧
        ((∀ row ∈ tl, row.length = 1) →
          ∀ row ∈ r2.time_line_after, row.length = 9)) := by
  have hok : ∀ (tl' : List (List ℚ)), tl'.length = tl.length →
      a.modelica_AHU_boundary (some tl') = .ok
        ⟨extendRows tl' (a.parent.central_ahu.profile_temperature)
            (a.parent.central_ahu.profile_min_relative_humidity)
            (a.parent.central_ahu.profile_max_relative_humidity)
            (a.parent.central_ahu.profile_v_flow),
          extendRows tl' (a.parent.central_ahu.profile_temperature)
            (a.parent.central_ahu.profile_min_relative_humidity)
            (a.parent.central_ahu.profile_max_relative_humidity)
            (a.parent.central_ahu.profile_v_flow)⟩ := by
    intro tl' hlen
    unfold AixLib.modelica_AHU_boundary
    rw [h]
    simp only [if_true, Option.getD_some, ite_true]
    rw [if_neg (by simp [hlen, h1]), if_neg (by simp [hlen, h2]),
      if_neg (by simp [hlen, h3]), if_neg (by simp [hlen, h4])]
  refine ⟨_, hok tl rfl, rfl, extendRows_length _ _ _ _ _, ?_, ?_, ?_⟩
  · intro i hi
    exact extendRows_getD _ _ _ _ _ i hi
  · intro hsing row hrow
    obtain ⟨i, hi, rfl⟩ := extendRows_mem _ _ _ _ _ _ hrow
    have hl := getD_length_of_mem tl i hi hsing
    rw [List.getD_eq_getElem?_getD] at hl
    simp [hl]
  · refine ⟨_, hok _ (extendRows_length _ _ _ _ _), ?_⟩
    intro hsing row hrow
    obtain ⟨i, hi, rfl⟩ := extendRows_mem _ _ _ _ _ _ hrow
    rw [extendRows_length] at hi
    rw [extendRows_getD _ _ _ _ _ i hi]
    have hl := getD_length_of_mem tl i hi hsing
    rw [List.getD_eq_getElem?_getD] at hl
    simp [hl]

/-- Witness for C10: an AHU building with one-entry profiles and a matching
one-row grid. -/
theorem AHU_boundary_mutates_time_line_witness :
    ∃ r, (AixLib.init bldgAHU).modelica_AHU_boundary (some [[0]]) = .ok r ∧
      r.time_line_after = r.written ∧
      r.time_line_after.length = [[(0 : ℚ)]].length ∧
      (∀ i, i < [[(0 : ℚ)]].length →
        r.time_line_after.getD i [] = [[(0 : ℚ)]].getD i [] ++
          [(AixLib.init bldgAHU).parent.central_ahu.profile_temperature.getD i 0,
           (AixLib.init bldgAHU).parent.central_ahu.profile_min_relative_humidity.getD i 0,
           (AixLib.init bldgAHU).parent.central_ahu.profile_max_relative_humidity.getD i 0,
           (AixLib.init bldgAHU).parent.central_ahu.profile_v_flow.getD i 0]) ∧
      ((∀ row ∈ [[(0 : ℚ)]], row.length = 1) →
        ∀ row ∈ r.time_line_after, row.length = 5) ∧
      (∃ r2, (AixLib.init bldgAHU).modelica_AHU_boundary (some r.time_line_after) = .ok r2 ∧
        ((∀ row ∈ [[(0 : ℚ)]], row.length = 1) →
          ∀ row ∈ r2.time_line_after, row.length = 9)) :=
  AHU_boundary_mutates_time_line (AixLib.init bldgAHU) rfl [[0]] rfl rfl rfl rfl

/-! ### Data-frame column assignment -/

lemma string_append_inj (p x y : String) (h : p ++ x = p ++ y) : x = y := by
  have hd := congrArg String.data h
  rw [String.data_append, String.data_append] at hd
  exact String.ext (List.append_cancel_left hd)

lemma person_machines_ne (x y : String) : "person_" ++ x ≠ "machines_" ++ y := by
  intro h
  have hd := congrArg String.data h
  rw [String.data_append, String.data_append,
    show "person_".data = ['p', 'e', 'r', 's', 'o', 'n', '_'] from rfl,
    show "machines_".data = ['m', 'a', 'c', 'h', 'i', 'n', 'e', 's', '_'] from rfl] at hd
  simp at hd

lemma person_lighting_ne (x y : String) : "person_" ++ x ≠ "lighting_" ++ y := by
  intro h
  have hd := congrArg String.data h
  rw [String.data_append, String.data_append,
    show "person_".data = ['p', 'e', 'r', 's', 'o', 'n', '_'] from rfl,
    show "lighting_".data = ['l', 'i', 'g', 'h', 't', 'i', 'n', 'g', '_'] from rfl] at hd
  simp at hd

lemma machines_lighting_ne (x y : String) : "machines_" ++ x ≠ "lighting_" ++ y := by
  intro h
  have hd := congrArg String.data h
  rw [String.data_append, String.data_append,
    show "machines_".data = ['m', 'a', 'c', 'h', 'i', 'n', 'e', 's', '_'] from rfl,
    show "lighting_".data = ['l', 'i', 'g', 'h', 't', 'i', 'n', 'g', '_'] from rfl] at hd
  simp at hd

lemma map_eq_self_of {α : Type} (l : List α) (g : α → α) (h : ∀ x ∈ l, g x = x) :
    l.map g = l := by
  conv_rhs => rw [← List.map_id l]
  exact List.map_congr_left h

lemma dfSet_absent (df : DFrame) (name : String) (vals : List ℚ)
    (h : ∀ p ∈ df, p.1 ≠ name) : dfSet df name vals = df ++ [(name, some vals)] := by
  unfold dfSet
  rw [if_neg ?_]
  simp only [List.any_eq_true, not_exists, not_and]
  intro p hp
  simp [h p hp]

lemma foldSet_ok (f : ThermalZone → List ℚ) (zs : List ThermalZone) :
    ∀ (A : DFrame),
      (∀ p ∈ A, ∀ z ∈ zs, p.1 ≠ z.name) →
      ((zs.map fun z => z.name).Nodup) →
      (∀ z ∈ zs, (f z).length = 8760) →
      List.foldlM (fun df z => dfSetChecked df z.name (f z))
        (A ++ (zs.map fun z => (z.name, (none : Option (List ℚ))))) zs =
        .ok (A ++ zs.map fun z => (z.name, some (f z))) := by
  induction zs with
  | nil => intro A _ _ _; rfl
  | cons z rest ih =>
    intro A hA hnd hlen
    have hz_not_rest : ∀ z' ∈ rest, z'.name ≠ z.name := by
      intro z' hz' he
      rw [List.map_cons, List.nodup_cons] at hnd
      exact hnd.1 (by rw [← he]; exact List.mem_map_of_mem _ hz')
    have hstep : dfSetChecked
        (A ++ ((z :: rest).map fun z => (z.name, (none : Option (List ℚ)))))
        z.name (f z) =
        .ok ((A ++ [(z.name, some (f z))]) ++
          (rest.map fun z' => (z'.name, (none : Option (List ℚ))))) := by
      unfold dfSetChecked
      rw [if_pos (hlen z (List.mem_cons_self z rest))]
      congr 1
      unfold dfSet
      rw [if_pos (by
        apply List.any_eq_true.mpr
        exact ⟨(z.name, none), by simp, by simp⟩)]
      rw [List.map_cons, List.map_append, List.map_cons]
      have hAmap : (A.map fun p => if p.1 == z.name then (p.1, some (f z)) else p) = A := by
        apply map_eq_self_of
        intro p hp
        rw [if_neg (by simp [hA p hp z (List.mem_cons_self z rest)])]
      have hrestmap : ((rest.map fun z' => (z'.name, (none : Option (List ℚ)))).map
          fun p => if p.1 == z.name then (p.1, some (f z)) else p) =
          rest.map fun z' => (z'.name, (none : Option (List ℚ))) := by
        rw [List.map_map]
        apply List.map_congr_left
        intro z' hz'
        simp only [Function.comp_apply]
        rw [if_neg (by simp [hz_not_rest z' hz'])]
      rw [hAmap, hrestmap]
      simp
    rw [List.foldlM_cons, hstep]
    show List.foldlM _ _ rest = _
    rw [ih (A ++ [(z.name, some (f z))])
      (by
        intro p hp z' hz'
        rcases List.mem_append.mp hp with h' | h'
        · exact hA p h' z' (List.mem_cons_of_mem z hz')
        · simp only [List.mem_singleton] at h'
          subst h'
          exact fun he => hz_not_rest z' hz' he.symm)
      (by rw [List.map_cons, List.nodup_cons] at hnd; exact hnd.2)
      (fun z' hz' => hlen z' (List.mem_cons_of_mem z hz'))]
    simp

lemma foldSet_error (f : ThermalZone → List ℚ) (zs : List ThermalZone) :
    ∀ (df : DFrame), (∃ z ∈ zs, (f z).length ≠ 8760) →
      ∃ e, List.foldlM (fun df z => dfSetChecked df z.name (f z)) df zs = .error e := by
  induction zs with
  | nil => intro df h; simp at h
  | cons z rest ih =>
    intro df h
    rw [List.foldlM_cons]
    by_cases hz : (f z).length = 8760
    · have hbad : ∃ z' ∈ rest, (f z').length ≠ 8760 := by
        obtain ⟨z', hz', hb⟩ := h
        rcases List.mem_cons.mp hz' with h' | h'
        · subst h'; exact absurd hz hb
        · exact ⟨z', h', hb⟩
      have hstep : dfSetChecked df z.name (f z) = .ok (dfSet df z.name (f z)) := by
        unfold dfSetChecked
        rw [if_pos hz]
      rw [hstep]
      exact ih (dfSet df z.name (f z)) hbad
    · have hstep : dfSetChecked df z.name (f z) =
          .error "Length of values does not match length of index" := by
        unfold dfSetChecked
        rw [if_neg hz]
      rw [hstep]
      exact ⟨_, rfl⟩

lemma foldGains_ok (zs : List ThermalZone) :
    ∀ (A : DFrame),
      (∀ p ∈ A, ∀ z ∈ zs, p.1 ≠ "person_" ++ z.name ∧
        p.1 ≠ "machines_" ++ z.name ∧ p.1 ≠ "lighting_" ++ z.name) →
      ((zs.map fun z => z.name).Nodup) →
      (∀ z ∈ zs, z.use_conditions.persons_profile.length = 8760 ∧
        z.use_conditions.machines_profile.length = 8760 ∧
        z.use_conditions.lighting_profile.length = 8760) →
      List.foldlM gainsStep A zs = .ok (A ++ zs.flatMap fun z =>
        [("person_" ++ z.name, some z.use_conditions.persons_profile),
         ("machines_" ++ z.name, some z.use_conditions.machines_profile),
         ("lighting_" ++ z.name, some z.use_conditions.lighting_profile)]) := by
  induction zs with
  | nil =>
    intro A _ _ _
    have h : A ++ ([] : List ThermalZone).flatMap (fun z =>
        [("person_" ++ z.name, some z.use_conditions.persons_profile),
         ("machines_" ++ z.name, some z.use_conditions.machines_profile),
         ("lighting_" ++ z.name, some z.use_conditions.lighting_profile)]) = A := by
      simp
    rw [h]
    rfl
  | cons z rest ih =>
    intro A hA hnd hlen
    have hz_not_rest : ∀ z' ∈ rest, z'.name ≠ z.name := by
      intro z' hz' he
      rw [List.map_cons, List.nodup_cons] at hnd
      exact hnd.1 (by rw [← he]; exact List.mem_map_of_mem _ hz')
    obtain ⟨hp8760, hm8760, hl8760⟩ := hlen z (List.mem_cons_self z rest)
    have hApz := fun p hp => hA p hp z (List.mem_cons_self z rest)
    have hstep : gainsStep A z = .ok (A ++
        [("person_" ++ z.name, some z.use_conditions.persons_profile),
         ("machines_" ++ z.name, some z.use_conditions.machines_profile),
         ("lighting_" ++ z.name, some z.use_conditions.lighting_profile)]) := by
      unfold gainsStep dfSetChecked
      rw [if_pos hp8760,
        dfSet_absent A _ _ (fun p hp => (hApz p hp).1)]
      show Except.bind _ _ = _
      rw [Except.bind]
      rw [if_pos hm8760,
        dfSet_absent _ _ _ ?mach]
      case mach =>
        intro p hp
        rcases List.mem_append.mp hp with h' | h'
        · exact (hApz p h').2.1
        · simp only [List.mem_singleton] at h'
          subst h'
          exact person_machines_ne z.name z.name
      show Except.bind _ _ = _
      rw [Except.bind]
      rw [if_pos hl8760,
        dfSet_absent _ _ _ ?light]
      case light =>
        intro p hp
        rcases List.mem_append.mp hp with h' | h'
        · rcases List.mem_append.mp h' with h'' | h''
          · exact (hApz p h'').2.2
          · simp only [List.mem_singleton] at h''
            subst h''
            exact person_lighting_ne z.name z.name
        · simp only [List.mem_singleton] at h'
          subst h'
          exact machines_lighting_ne z.name z.name
      simp
    rw [List.foldlM_cons, hstep]
    show List.foldlM _ _ rest = _
    rw [ih (A ++
        [("person_" ++ z.name, some z.use_conditions.persons_profile),
         ("machines_" ++ z.name, some z.use_conditions.machines_profile),
         ("lighting_" ++ z.name, some z.use_conditions.lighting_profile)])
      (by
        intro p hp z' hz'
        rcases List.mem_append.mp hp with h' | h'
        · exact hA p h' z' (List.mem_cons_of_mem z hz')
        · have hzz' : z.name ≠ z'.name := fun he => hz_not_rest z' hz' he.symm
          have hinj : ∀ q : String, q ++ z.name ≠ q ++ z'.name :=
            fun q he => hzz' (string_append_inj q _ _ he)
          simp only [List.mem_cons, List.mem_singleton, List.not_mem_nil, or_false] at h'
          rcases h' with rfl | rfl | rfl
          · exact ⟨hinj "person_", person_machines_ne _ _, person_lighting_ne _ _⟩
          · exact ⟨fun he => person_machines_ne _ _ he.symm, hinj "machines_",
              machines_lighting_ne _ _⟩
          · exact ⟨fun he => person_lighting_ne _ _ he.symm,
              fun he => machines_lighting_ne _ _ he.symm, hinj "lighting_"⟩)
      (by rw [List.map_cons, List.nodup_cons] at hnd; exact hnd.2)
      (fun z' hz' => hlen z' (List.mem_cons_of_mem z hz'))]
    simp

/-! ### Structure of the generated text matrices -/

lemma matrixRows_length (df : DFrame) : (matrixRows df).length = 8760 := by
  simp [matrixRows]

lemma matrixRows_getElem (df : DFrame) (i : ℕ) (hi : i < 8760) :
    (matrixRows df)[i]? =
      some (joinTab (encNat ((i + 1) * 3600) ::
        df.map fun p => encRat ((p.2.getD []).getD i 0))) := by
  unfold matrixRows
  rw [List.getElem?_map, List.getElem?_range hi]
  rfl

lemma splitTab_encoded_row (m : ℕ) (fs : List (List Char))
    (h : ∀ f ∈ fs, ∀ c ∈ f, c ≠ '\t') :
    splitTab (joinTab (encNat m :: fs)) = encNat m :: fs := by
  apply splitTab_joinTab
  · simp
  · intro f hf c hc
    rcases List.mem_cons.mp hf with rfl | hf'
    · exact encNat_no_tab hc
    · exact h f hf' c hc

lemma encRat_fields_no_tab (df : DFrame) (i : ℕ) :
    ∀ f ∈ (df.map fun p => encRat ((p.2.getD []).getD i 0)), ∀ c ∈ f, c ≠ '\t' := by
  intro f hf c hc
  obtain ⟨p, _, rfl⟩ := List.mem_map.mp hf
  exact encRat_no_tab hc

lemma set_temp_lines_ok (a : AixLib)
    (hnd : (a.parent.thermal_zones.map fun z => z.name).Nodup)
    (hlen : ∀ z ∈ a.parent.thermal_zones,
      z.use_conditions.heating_profile.length = 8760) :
    a.modelica_set_temp_lines = .ok ("#1".data ::
      headerLine "Tset" (a.parent.thermal_zones.length + 1) ::
      matrixRows (a.parent.thermal_zones.map fun z =>
        (z.name, some z.use_conditions.heating_profile))) := by
  unfold AixLib.modelica_set_temp_lines
  have hfold := foldSet_ok (fun z => z.use_conditions.heating_profile)
    a.parent.thermal_zones [] (by simp) hnd hlen
  rw [List.nil_append] at hfold
  rw [show (([] : DFrame) ++ a.parent.thermal_zones.map fun z =>
    (z.name, some z.use_conditions.heating_profile)) =
    a.parent.thermal_zones.map fun z =>
    (z.name, some z.use_conditions.heating_profile) from List.nil_append _] at hfold
  show Except.bind _ _ = _
  rw [hfold]
  rfl

lemma set_temp_cool_lines_ok (a : AixLib)
    (hnd : (a.parent.thermal_zones.map fun z => z.name).Nodup)
    (hlen : ∀ z ∈ a.parent.thermal_zones,
      z.use_conditions.cooling_profile.length = 8760) :
    a.modelica_set_temp_cool_lines = .ok ("#1".data ::
      headerLine "Tset" (a.parent.thermal_zones.length + 1) ::
      matrixRows (a.parent.thermal_zones.map fun z =>
        (z.name, some z.use_conditions.cooling_profile))) := by
  unfold AixLib.modelica_set_temp_cool_lines
  have hfold := foldSet_ok (fun z => z.use_conditions.cooling_profile)
    a.parent.thermal_zones [] (by simp) hnd hlen
  rw [List.nil_append] at hfold
  rw [show (([] : DFrame) ++ a.parent.thermal_zones.map fun z =>
    (z.name, some z.use_conditions.cooling_profile)) =
    a.parent.thermal_zones.map fun z =>
    (z.name, some z.use_conditions.cooling_profile) from List.nil_append _] at hfold
  show Except.bind _ _ = _
  rw [hfold]
  rfl

lemma gains_lines_ok (a : AixLib)
    (hnd : (a.parent.thermal_zones.map fun z => z.name).Nodup)
    (hlen : ∀ z ∈ a.parent.thermal_zones,
      z.use_conditions.persons_profile.length = 8760 ∧
      z.use_conditions.machines_profile.length = 8760 ∧
      z.use_conditions.lighting_profile.length = 8760) :
    a.modelica_gains_boundary_lines = .ok ("#1".data ::
      headerLine "Internals" (a.parent.thermal_zones.length * 3 + 1) ::
      matrixRows (a.parent.thermal_zones.flatMap fun z =>
        [("person_" ++ z.name, some z.use_conditions.persons_profile),
         ("machines_" ++ z.name, some z.use_conditions.machines_profile),
         ("lighting_" ++ z.name, some z.use_conditions.lighting_profile)])) := by
  unfold AixLib.modelica_gains_boundary_lines
  have hfold := foldGains_ok a.parent.thermal_zones [] (by simp) hnd hlen
  rw [show (([] : DFrame) ++ a.parent.thermal_zones.flatMap fun z =>
    [("person_" ++ z.name, some z.use_conditions.persons_profile),
     ("machines_" ++ z.name, some z.use_conditions.machines_profile),
     ("lighting_" ++ z.name, some z.use_conditions.lighting_profile)]) =
    a.parent.thermal_zones.flatMap fun z =>
    [("person_" ++ z.name, some z.use_conditions.persons_profile),
     ("machines_" ++ z.name, some z.use_conditions.machines_profile),
     ("lighting_" ++ z.name, some z.use_conditions.lighting_profile)]
    from List.nil_append _] at hfold
  show Except.bind _ _ = _
  rw [hfold]
  rfl

/-- Claim C4: when every zone has an 8760-entry heating set-point profile,
`modelica_set_temp` produces content beginning with a `#1` marker line and a
`double Tset(8760, zone_count+1)` header, followed by exactly 8760
tab-separated data rows without column headers or an index label; row `i`
starts with the field `(i+1)*3600` and continues with one field per zone, in
zone order, from that zone's heating profile.  If some zone's profile length
is not 8760 the export fails. -/
theorem modelica_set_temp_format (a : AixLib)
    (hnd : (a.parent.thermal_zones.map fun z => z.name).Nodup) :
    ((∀ z ∈ a.parent.thermal_zones,
        z.use_conditions.heating_profile.length = 8760) →
      ∃ rows, a.modelica_set_temp_lines = .ok ("#1".data ::
          headerLine "Tset" (a.parent.thermal_zones.length + 1) :: rows) ∧
        rows.length = 8760 ∧
        (∀ i, i < 8760 → ∃ row, rows[i]? = some row ∧
          splitTab row = encNat ((i + 1) * 3600) ::
            a.parent.thermal_zones.map fun z =>
              encRat (z.use_conditions.heating_profile.getD i 0))) ∧
    ((∃ z ∈ a.parent.thermal_zones,
        z.use_conditions.heating_profile.length ≠ 8760) →
      ∃ e, a.modelica_set_temp_lines = .error e) := by
  constructor
  · intro hlen
    have hok := set_temp_lines_ok a hnd hlen
    refine ⟨_, hok, ?_, ?_⟩
    · exact matrixRows_length _
    intro i hi
    have hmap : ((a.parent.thermal_zones.map fun z =>
        (z.name, some z.use_conditions.heating_profile)).map
          fun p => encRat ((p.2.getD []).getD i 0)) =
        a.parent.thermal_zones.map fun z =>
          encRat (z.use_conditions.heating_profile.getD i 0) := by
      rw [List.map_map]
      rfl
    refine ⟨_, matrixRows_getElem _ i hi, ?_⟩
    rw [splitTab_encoded_row _ _ (encRat_fields_no_tab _ i), hmap]
  · intro hbad
    obtain ⟨e, he⟩ := foldSet_error (fun z => z.use_conditions.heating_profile)
      a.parent.thermal_zones
      (a.parent.thermal_zones.map fun z => (z.name, none)) hbad
    refine ⟨e, ?_⟩
    unfold AixLib.modelica_set_temp_lines
    show Except.bind _ _ = _
    rw [he]
    rfl

/-- Witness for C4: a one-zone building with full-year profiles. -/
theorem modelica_set_temp_format_witness :
    ((∀ z ∈ (AixLib.init bldgOneZone).parent.thermal_zones,
        z.use_conditions.heating_profile.length = 8760) →
      ∃ rows, (AixLib.init bldgOneZone).modelica_set_temp_lines = .ok ("#1".data ::
          headerLine "Tset"
            ((AixLib.init bldgOneZone).parent.thermal_zones.length + 1) :: rows) ∧
        rows.length = 8760 ∧
        (∀ i, i < 8760 → ∃ row, rows[i]? = some row ∧
          splitTab row = encNat ((i + 1) * 3600) ::
            (AixLib.init bldgOneZone).parent.thermal_zones.map fun z =>
              encRat (z.use_conditions.heating_profile.getD i 0))) ∧
    ((∃ z ∈ (AixLib.init bldgOneZone).parent.thermal_zones,
        z.use_conditions.heating_profile.length ≠ 8760) →
      ∃ e, (AixLib.init bldgOneZone).modelica_set_temp_lines = .error e) :=
  modelica_set_temp_format (AixLib.init bldgOneZone) (by
    show (List.map _ [_]).Nodup
    rw [List.map_cons, List.map_nil]
    exact List.nodup_singleton _)

/-! ### Reading the matrices back -/

lemma parseMatrix_rows (hdr : List Char) (df : DFrame) :
    parseMatrix ("#1".data :: hdr :: matrixRows df) =
      (List.range 8760).map fun i =>
        decRat (encNat ((i + 1) * 3600)) ::
          df.map fun p => (p.2.getD []).getD i 0 := by
  unfold parseMatrix
  show (matrixRows df).map _ = _
  unfold matrixRows
  rw [List.map_map]
  apply List.map_congr_left
  intro i _
  simp only [Function.comp_apply]
  rw [splitTab_encoded_row _ _ (encRat_fields_no_tab df i), List.map_cons]
  congr 1
  rw [List.map_map]
  apply List.map_congr_left
  intro p _
  simp only [Function.comp_apply]
  exact decRat_encRat _

lemma getD_map_get {α β : Type} (l : List α) (f : α → β) (j : ℕ) (hj : j < l.length)
    (d : β) : (l.map f).getD j d = f (l.get ⟨j, hj⟩) := by
  rw [List.getD_eq_getElem?_getD, List.getElem?_map, List.getElem?_eq_getElem hj]
  simp

lemma parse_col_set (zones : List ThermalZone) (f : ThermalZone → List ℚ)
    (j : ℕ) (hj : j < zones.length)
    (hlenj : (f (zones.get ⟨j, hj⟩)).length = 8760) :
    ((List.range 8760).map fun i =>
        decRat (encNat ((i + 1) * 3600)) ::
          (zones.map fun z => (z.name, some (f z))).map
            fun p => (p.2.getD []).getD i 0).map
      (fun r => r.getD (j + 1) 0) = f (zones.get ⟨j, hj⟩) := by
  rw [List.map_map]
  have hjlen : j < (zones.map fun z => (z.name, some (f z))).length := by
    rw [List.length_map]
    exact hj
  have hcongr : ∀ i ∈ List.range 8760,
      ((fun r => r.getD (j + 1) 0) ∘ fun i =>
        decRat (encNat ((i + 1) * 3600)) ::
          (zones.map fun z => (z.name, some (f z))).map
            fun p => (p.2.getD []).getD i 0) i =
      (fun i => (f (zones.get ⟨j, hj⟩)).getD i 0) i := by
    intro i _
    simp only [Function.comp_apply, List.getD_cons_succ]
    rw [getD_map_get _ _ j hjlen, List.get_eq_getElem, List.get_eq_getElem,
      List.getElem_map]
    rfl
  rw [List.map_congr_left hcongr, map_range_getD _ _ hlenj]

lemma flatMap3_getElem (zs : List ThermalZone)
    (F G H : ThermalZone → String × Option (List ℚ)) :
    ∀ (j : ℕ) (hj : j < zs.length),
      ((zs.flatMap fun z => [F z, G z, H z])[3 * j]? =
        some (F (zs.get ⟨j, hj⟩))) ∧
      ((zs.flatMap fun z => [F z, G z, H z])[3 * j + 1]? =
        some (G (zs.get ⟨j, hj⟩))) ∧
      ((zs.flatMap fun z => [F z, G z, H z])[3 * j + 2]? =
        some (H (zs.get ⟨j, hj⟩))) := by
  induction zs with
  | nil => intro j hj; simp at hj
  | cons z rest ih =>
    intro j hj
    cases j with
    | zero => simp [List.flatMap_cons]
    | succ j' =>
      have hj' : j' < rest.length := by simpa using hj
      obtain ⟨i0, i1, i2⟩ := ih j' hj'
      have hfm : ((z :: rest).flatMap fun z => [F z, G z, H z]) =
          F z :: G z :: H z :: rest.flatMap fun z => [F z, G z, H z] := by
        simp [List.flatMap_cons]
      have hget : (z :: rest).get ⟨j' + 1, hj⟩ = rest.get ⟨j', hj'⟩ := rfl
      refine ⟨?_, ?_, ?_⟩
      · rw [hfm, hget, show 3 * (j' + 1) = 3 * j' + 2 + 1 by ring,
          List.getElem?_cons_succ, show 3 * j' + 2 = 3 * j' + 1 + 1 by ring,
          List.getElem?_cons_succ, List.getElem?_cons_succ]
        exact i0
      · rw [hfm, hget, show 3 * (j' + 1) + 1 = 3 * j' + 3 + 1 by ring,
          List.getElem?_cons_succ, show 3 * j' + 3 = 3 * j' + 2 + 1 by ring,
          List.getElem?_cons_succ, show 3 * j' + 2 = 3 * j' + 1 + 1 by ring,
          List.getElem?_cons_succ]
        exact i1
      · rw [hfm, hget, show 3 * (j' + 1) + 2 = 3 * j' + 4 + 1 by ring,
          List.getElem?_cons_succ, show 3 * j' + 4 = 3 * j' + 3 + 1 by ring,
          List.getElem?_cons_succ, show 3 * j' + 3 = 3 * j' + 2 + 1 by ring,
          List.getElem?_cons_succ]
        exact i2

lemma parse_col_gains (zones : List ThermalZone) (j : ℕ) (hj : j < zones.length)
    (k : ℕ) (hk : k < 3) (prof : ThermalZone → List ℚ)
    (hsel : ∀ z, (if k = 0 then ("person_" ++ z.name, some z.use_conditions.persons_profile)
      else if k = 1 then ("machines_" ++ z.name, some z.use_conditions.machines_profile)
      else ("lighting_" ++ z.name, some z.use_conditions.lighting_profile)).2 =
        some (prof z))
    (hlenj : (prof (zones.get ⟨j, hj⟩)).length = 8760) :
    ((List.range 8760).map fun i =>
        decRat (encNat ((i + 1) * 3600)) ::
          (zones.flatMap fun z =>
            [("person_" ++ z.name, some z.use_conditions.persons_profile),
             ("machines_" ++ z.name, some z.use_conditions.machines_profile),
             ("lighting_" ++ z.name, some z.use_conditions.lighting_profile)]).map
            fun p => (p.2.getD []).getD i 0).map
      (fun r => r.getD (3 * j + k + 1) 0) = prof (zones.get ⟨j, hj⟩) := by
  have hblock := flatMap3_getElem zones
    (fun z => ("person_" ++ z.name, some z.use_conditions.persons_profile))
    (fun z => ("machines_" ++ z.name, some z.use_conditions.machines_profile))
    (fun z => ("lighting_" ++ z.name, some z.use_conditions.lighting_profile))
    j hj
  have hdfblock : (zones.flatMap fun z =>
      [("person_" ++ z.name, some z.use_conditions.persons_profile),
       ("machines_" ++ z.name, some z.use_conditions.machines_profile),
       ("lighting_" ++ z.name, some z.use_conditions.lighting_profile)])[3 * j + k]? =
      some (if k = 0 then
          ("person_" ++ (zones.get ⟨j, hj⟩).name,
            some (zones.get ⟨j, hj⟩).use_conditions.persons_profile)
        else if k = 1 then
          ("machines_" ++ (zones.get ⟨j, hj⟩).name,
            some (zones.get ⟨j, hj⟩).use_conditions.machines_profile)
        else
          ("lighting_" ++ (zones.get ⟨j, hj⟩).name,
            some (zones.get ⟨j, hj⟩).use_conditions.lighting_profile)) := by
    interval_cases k
    · simpa using hblock.1
    · simpa using hblock.2.1
    · simpa using hblock.2.2
  rw [List.map_map]
  have hcongr : ∀ i ∈ List.range 8760,
      ((fun r => r.getD (3 * j + k + 1) 0) ∘ fun i =>
        decRat (encNat ((i + 1) * 3600)) ::
          (zones.flatMap fun z =>
            [("person_" ++ z.name, some z.use_conditions.persons_profile),
             ("machines_" ++ z.name, some z.use_conditions.machines_profile),
             ("lighting_" ++ z.name, some z.use_conditions.lighting_profile)]).map
            fun p => (p.2.getD []).getD i 0) i =
      (fun i => (prof (zones.get ⟨j, hj⟩)).getD i 0) i := by
    intro i _
    simp only [Function.comp_apply, List.getD_cons_succ]
    rw [List.getD_eq_getElem?_getD, List.getElem?_map, hdfblock]
    have hthis := hsel (zones.get ⟨j, hj⟩)
    interval_cases k
    · have hval : (zones.get ⟨j, hj⟩).use_conditions.persons_profile =
          prof (zones.get ⟨j, hj⟩) := Option.some.inj hthis
      simp only [List.get_eq_getElem] at hval
      simp [hval]
    · have hval : (zones.get ⟨j, hj⟩).use_conditions.machines_profile =
          prof (zones.get ⟨j, hj⟩) := Option.some.inj hthis
      simp only [List.get_eq_getElem] at hval
      simp [hval]
    · have hval : (zones.get ⟨j, hj⟩).use_conditions.lighting_profile =
          prof (zones.get ⟨j, hj⟩) := Option.some.inj hthis
      simp only [List.get_eq_getElem] at hval
      simp [hval]
  rw [List.map_congr_left hcongr, map_range_getD _ _ hlenj]

/-- Claim C7: re-reading a matrix generated by the heating set-point or
internal-gains exporter — skipping the `#1` and header lines and parsing the
tab-separated rows — reconstructs exactly the original profile values, in
zone order (for the gains matrix: persons, machines, lighting columns per
zone). -/
theorem matrix_round_trip (a : AixLib)
    (hnd : (a.parent.thermal_zones.map fun z => z.name).Nodup)
    (hheat : ∀ z ∈ a.parent.thermal_zones,
      z.use_conditions.heating_profile.length = 8760)
    (hgain : ∀ z ∈ a.parent.thermal_zones,
      z.use_conditions.persons_profile.length = 8760 ∧
      z.use_conditions.machines_profile.length = 8760 ∧
      z.use_conditions.lighting_profile.length = 8760) :
    (∃ lines, a.modelica_set_temp_lines = .ok lines ∧
      ∀ j (hj : j < a.parent.thermal_zones.length),
        (parseMatrix lines).map (fun r => r.getD (j + 1) 0) =
          (a.parent.thermal_zones.get ⟨j, hj⟩).use_conditions.heating_profile) ∧
    (∃ lines, a.modelica_gains_boundary_lines = .ok lines ∧
      ∀ j (hj : j < a.parent.thermal_zones.length),
        ((parseMatrix lines).map (fun r => r.getD (3 * j + 0 + 1) 0) =
          (a.parent.thermal_zones.get ⟨j, hj⟩).use_conditions.persons_profile) ∧
        ((parseMatrix lines).map (fun r => r.getD (3 * j + 1 + 1) 0) =
          (a.parent.thermal_zones.get ⟨j, hj⟩).use_conditions.machines_profile) ∧
        ((parseMatrix lines).map (fun r => r.getD (3 * j + 2 + 1) 0) =
          (a.parent.thermal_zones.get ⟨j, hj⟩).use_conditions.lighting_profile)) := by
  constructor
  · have hok := set_temp_lines_ok a hnd hheat
    refine ⟨_, hok, ?_⟩
    intro j hj
    rw [parseMatrix_rows]
    exact parse_col_set a.parent.thermal_zones
      (fun z => z.use_conditions.heating_profile) j hj
      (hheat _ (a.parent.thermal_zones.get_mem _ _))
  · have hok := gains_lines_ok a hnd hgain
    refine ⟨_, hok, ?_⟩
    intro j hj
    obtain ⟨hp, hm, hl⟩ := hgain _ (a.parent.thermal_zones.get_mem _ _)
    refine ⟨?_, ?_, ?_⟩
    · rw [parseMatrix_rows]
      exact parse_col_gains a.parent.thermal_zones j hj 0 (by omega)
        (fun z => z.use_conditions.persons_profile) (fun z => rfl) hp
    · rw [parseMatrix_rows]
      exact parse_col_gains a.parent.thermal_zones j hj 1 (by omega)
        (fun z => z.use_conditions.machines_profile) (fun z => rfl) hm
    · rw [parseMatrix_rows]
      exact parse_col_gains a.parent.thermal_zones j hj 2 (by omega)
        (fun z => z.use_conditions.lighting_profile) (fun z => rfl) hl

/-- Witness for C7: the one-zone building with full-year profiles. -/
theorem matrix_round_trip_witness :
    (∃ lines, (AixLib.init bldgOneZone).modelica_set_temp_lines = .ok lines ∧
      ∀ j (hj : j < (AixLib.init bldgOneZone).parent.thermal_zones.length),
        (parseMatrix lines).map (fun r => r.getD (j + 1) 0) =
          ((AixLib.init bldgOneZone).parent.thermal_zones.get
            ⟨j, hj⟩).use_conditions.heating_profile) ∧
    (∃ lines, (AixLib.init bldgOneZone).modelica_gains_boundary_lines = .ok lines ∧
      ∀ j (hj : j < (AixLib.init bldgOneZone).parent.thermal_zones.length),
        ((parseMatrix lines).map (fun r => r.getD (3 * j + 0 + 1) 0) =
          ((AixLib.init bldgOneZone).parent.thermal_zones.get
            ⟨j, hj⟩).use_conditions.persons_profile) ∧
        ((parseMatrix lines).map (fun r => r.getD (3 * j + 1 + 1) 0) =
          ((AixLib.init bldgOneZone).parent.thermal_zones.get
            ⟨j, hj⟩).use_conditions.machines_profile) ∧
        ((parseMatrix lines).map (fun r => r.getD (3 * j + 2 + 1) 0) =
          ((AixLib.init bldgOneZone).parent.thermal_zones.get
            ⟨j, hj⟩).use_conditions.lighting_profile)) :=
  matrix_round_trip (AixLib.init bldgOneZone)
    (by
      show (List.map _ [_]).Nodup
      rw [List.map_cons, List.map_nil]
      exact List.nodup_singleton _)
    (by
      intro z hz
      rcases List.mem_singleton.mp hz with rfl
      show (List.replicate 8760 (2 : ℚ)).length = 8760
      exact List.length_replicate _ _)
    (by
      intro z hz
      rcases List.mem_singleton.mp hz with rfl
      refine ⟨?_, ?_, ?_⟩
      · show (List.replicate 8760 ((1 : ℚ)/2)).length = 8760
        exact List.length_replicate _ _
      · show (List.replicate 8760 ((1 : ℚ)/4)).length = 8760
        exact List.length_replicate _ _
      · show (List.replicate 8760 ((3 : ℚ)/4)).length = 8760
        exact List.length_replicate _ _)

/-! ### Append mode of the text-file writers -/

lemma except_bind_ok {α β : Type} (X : Except String α) (g : α → β) (lines : β)
    (h : (X >>= fun x => Except.ok (g x)) = .ok lines) :
    ∃ x, X = .ok x ∧ lines = g x := by
  cases X with
  | error e => exact Except.noConfusion h
  | ok x =>
    refine ⟨x, rfl, ?_⟩
    have h' : Except.ok (g x) = (Except.ok lines : Except String β) := h
    exact (Except.ok.inj h').symm

lemma set_temp_lines_head (a : AixLib) (lines : List (List Char))
    (h : a.modelica_set_temp_lines = .ok lines) : lines.head? = some ("#1".data) := by
  unfold AixLib.modelica_set_temp_lines at h
  obtain ⟨df, _, rfl⟩ := except_bind_ok _ _ _ h
  rfl

lemma set_temp_cool_lines_head (a : AixLib) (lines : List (List Char))
    (h : a.modelica_set_temp_cool_lines = .ok lines) :
    lines.head? = some ("#1".data) := by
  unfold AixLib.modelica_set_temp_cool_lines at h
  obtain ⟨df, _, rfl⟩ := except_bind_ok _ _ _ h
  rfl

lemma gains_lines_head (a : AixLib) (lines : List (List Char))
    (h : a.modelica_gains_boundary_lines = .ok lines) :
    lines.head? = some ("#1".data) := by
  unfold AixLib.modelica_gains_boundary_lines at h
  obtain ⟨df, _, rfl⟩ := except_bind_ok _ _ _ h
  rfl

/-- Claim C9: the set-point (heating and cooling) and internal-gains writers
open their file in append mode: whatever the previous file contents, a
successful export leaves them unchanged as a prefix and appends the new
`#1` marker, header and data rows after them; nothing is truncated or
overwritten. -/
theorem writers_append_mode (a : AixLib) (prev : List (List Char)) :
    (∀ lines, a.modelica_set_temp_lines = .ok lines →
      a.modelica_set_temp prev = .ok (prev ++ lines) ∧
      (prev ++ lines).take prev.length = prev ∧
      (prev ++ lines).drop prev.length = lines ∧
      lines.head? = some ("#1".data)) ∧
    (∀ lines, a.modelica_set_temp_cool_lines = .ok lines →
      a.modelica_set_temp_cool prev = .ok (prev ++ lines) ∧
      (prev ++ lines).take prev.length = prev ∧
      (prev ++ lines).drop prev.length = lines ∧
      lines.head? = some ("#1".data)) ∧
    (∀ lines, a.modelica_gains_boundary_lines = .ok lines →
      a.modelica_gains_boundary prev = .ok (prev ++ lines) ∧
      (prev ++ lines).take prev.length = prev ∧
      (prev ++ lines).drop prev.length = lines ∧
      lines.head? = some ("#1".data)) := by
  refine ⟨fun lines h => ⟨?_, List.take_left _ _, List.drop_left _ _,
      set_temp_lines_head a lines h⟩,
    fun lines h => ⟨?_, List.take_left _ _, List.drop_left _ _,
      set_temp_cool_lines_head a lines h⟩,
    fun lines h => ⟨?_, List.take_left _ _, List.drop_left _ _,
      gains_lines_head a lines h⟩⟩
  · unfold AixLib.modelica_set_temp
    rw [h]
    rfl
  · unfold AixLib.modelica_set_temp_cool
    rw [h]
    rfl
  · unfold AixLib.modelica_gains_boundary
    rw [h]
    rfl

/-- Witness for C9: the three writers on a zone-less building, with empty
previous contents. -/
theorem writers_append_mode_witness :
    ((AixLib.init bldgNoZones).modelica_set_temp [] =
      .ok ([] ++ ("#1".data :: headerLine "Tset" 1 :: matrixRows []))) ∧
    ((AixLib.init bldgNoZones).modelica_set_temp_cool [] =
      .ok ([] ++ ("#1".data :: headerLine "Tset" 1 :: matrixRows []))) ∧
    ((AixLib.init bldgNoZones).modelica_gains_boundary [] =
      .ok ([] ++ ("#1".data :: headerLine "Internals" 1 :: matrixRows []))) :=
  ⟨((writers_append_mode (AixLib.init bldgNoZones) []).1 _ rfl).1,
   ((writers_append_mode (AixLib.init bldgNoZones) []).2.1 _ rfl).1,
   ((writers_append_mode (AixLib.init bldgNoZones) []).2.2 _ rfl).1⟩

/-! ### `export_annex60` for unsupported element counts -/

lemma zone_template_for_ne_two (n : ℤ) (h : n ≠ 2) : zone_template_for n = none := by
  unfold zone_template_for
  split_ifs <;> rfl

lemma exportZones_none (bname : String) (zs : List ThermalZone) :
    ((exportZones none bname zs).1.filter FSEvent.isWriteModel = []) ∧
    ((exportZones none bname zs).2 = none ↔ zs = []) := by
  cases zs with
  | nil => simp [exportZones]
  | cons z rest => simp [exportZones, FSEvent.isWriteModel]

lemma exportBuildings_none (bs : List Building) :
    ((exportBuildings none bs).1.filter FSEvent.isWriteModel = []) ∧
    ((exportBuildings none bs).2 = none ↔ ∀ b ∈ bs, b.thermal_zones = []) ∧
    ((exportBuildings none bs).2 = none ∨
      (exportBuildings none bs).2 = some unboundTemplateError) := by
  induction bs with
  | nil => simp [exportBuildings]
  | cons b rest ih =>
    obtain ⟨ih1, ih2, ih3⟩ := ih
    cases hz : b.thermal_zones with
    | nil =>
      have hzr : exportZones none b.name b.thermal_zones = ([], none) := by
        rw [hz]
        rfl
      refine ⟨?_, ?_, ?_⟩
      · simp [exportBuildings, hzr, List.filter_append, FSEvent.isWriteModel, ih1]
      · have hred : (exportBuildings none (b :: rest)).2 =
            (exportBuildings none rest).2 := by
          simp [exportBuildings, hzr]
        rw [hred, ih2, List.forall_mem_cons]
        simp [hz]
      · have hred : (exportBuildings none (b :: rest)).2 =
            (exportBuildings none rest).2 := by
          simp [exportBuildings, hzr]
        rw [hred]
        exact ih3
    | cons z zrest =>
      have hzr : (exportZones none b.name b.thermal_zones).2 =
          some unboundTemplateError := by
        rw [hz]
        rfl
      refine ⟨?_, ?_, ?_⟩
      · simp [exportBuildings, hz, exportZones, List.filter_append, FSEvent.isWriteModel]
      · simp [exportBuildings, hz, exportZones, unboundTemplateError]
      · simp [exportBuildings, hz, exportZones]

/-- Claim C2 counterexample: a project with one building that has one zone,
exported with `number_of_elements = 1`, does not complete without error: it
raises the `UnboundLocalError` for the never-assigned `zone_template`. -/
theorem export_annex60_not_silent :
    (export_annex60 prjOne 1 none).2 = some unboundTemplateError := rfl

/-- Claim C2 amended: for every `number_of_elements` other than 2 no
template is selected and no model content is ever written; the export
completes without error only when every exported building has no thermal
zones — as soon as some building has a zone, the export aborts with the
`UnboundLocalError` for the unassigned `zone_template` (after the package
scaffolding, and an empty model file for the first zone, were written). -/
theorem export_annex60_no_template (prj : Project) (n : ℤ) (iid : Option ℤ)
    (h : n ≠ 2) :
    ((export_annex60 prj n iid).1.filter FSEvent.isWriteModel = []) ∧
    ((export_annex60 prj n iid).2 = none ↔
      ∀ b ∈ exported_buildings prj iid, b.thermal_zones = []) ∧
    ((export_annex60 prj n iid).2 = none ∨
      (export_annex60 prj n iid).2 = some unboundTemplateError) := by
  obtain ⟨h1, h2, h3⟩ := exportBuildings_none (exported_buildings prj iid)
  unfold export_annex60
  rw [zone_template_for_ne_two n h]
  refine ⟨?_, ?_, ?_⟩
  · simp [List.filter_append, FSEvent.isWriteModel, h1]
  · exact h2
  · exact h3

/-- Witness for the amended C2 at `number_of_elements = 1` on a one-zone
project. -/
theorem export_annex60_no_template_witness :
    ((export_annex60 prjOne 1 none).1.filter FSEvent.isWriteModel = []) ∧
    ((export_annex60 prjOne 1 none).2 = none ↔
      ∀ b ∈ exported_buildings prjOne none, b.thermal_zones = []) ∧
    ((export_annex60 prjOne 1 none).2 = none ∨
      (export_annex60 prjOne 1 none).2 = some unboundTemplateError) :=
  export_annex60_no_template prjOne 1 none (by decide)

end Teaser
